import Mathlib

/-!
Shallow embedding of the household expense tracker's core domain logic
(household resolution, expense storage, split allocation, budget
evaluation, and the monthly-summary budget computation), translated from
`app.py`.  Monetary amounts are modelled as rationals, the expenses table
as a list of rows, and the datastore behind `get_user_budgets` as a record
of fallible query results.
-/

/-- Python's `str.lower()` (ASCII case folding), applied characterwise. -/
def lower (s : String) : String := ⟨s.data.map Char.toLower⟩

/-- Static household configuration `HOUSEHOLD_USERS` from `app.py`:
household name to member list. -/
def HOUSEHOLD_USERS : List (String × List String) :=
  [("erez_lia", ["erez", "lia"]), ("parents", ["mom", "dad"])]

/-- Derived user-to-household map `USER_HOUSEHOLD`, built by iterating
`HOUSEHOLD_USERS` in order, as in `app.py`. -/
def USER_HOUSEHOLD : List (String × String) :=
  (HOUSEHOLD_USERS.map (fun hw => hw.2.map (fun u => (u, hw.1)))).flatten

/-- `get_user_household` from `app.py`: exact-key lookup, then
case-insensitive lookup, then hardcoded special cases, else "default".
An empty username also yields "default". -/
def get_user_household (username : String) : String :=
  if username = "" then "default"
  else
    match USER_HOUSEHOLD.find? (fun p => p.1 = username) with
    | some p => p.2
    | none =>
      match USER_HOUSEHOLD.find? (fun p => lower p.1 = lower username) with
      | some p => p.2
      | none =>
        if lower username = "erez" then "erez_lia"
        else if lower username = "lia" then "erez_lia"
        else if lower username = "mom" ∨ lower username = "dad" then "parents"
        else "default"

/-- `get_household_users` from `app.py`: the member list of the user's
household (defaulting to the singleton of the user), with the two
authentication-case special branches. -/
def get_household_users (username : String) : List String :=
  if get_user_household username = "erez_lia" ∧ (username = "erez" ∨ username = "lia") then
    ["erez", "lia"]
  else if get_user_household username = "parents" ∧ (username = "mom" ∨ username = "dad") then
    ["mom", "dad"]
  else
    match HOUSEHOLD_USERS.find? (fun p => p.1 = get_user_household username) with
    | some p => p.2
    | none => [username]

/-- One row of the `expenses` table: id, creation timestamp `ts`,
transaction date `tx_date` (both modelled as opaque ordinals), category,
amount, payer, notes, optional split counterpart, and the stored
household tag. -/
structure Expense where
  id : Nat
  ts : Nat
  tx_date : Nat
  category : String
  amount : ℚ
  payer : String
  notes : String
  split_with : Option String
  household : String
deriving Repr, DecidableEq

/-- `add_expense` from `app.py`: INSERT of a fresh row whose `household`
column is `get_user_household payer`, computed at write time. -/
def add_expense (table : List Expense) (newId ts tx_date : Nat) (category : String)
    (amount : ℚ) (payer nts : String) (split_with : Option String) : List Expense :=
  table ++ [{ id := newId, ts := ts, tx_date := tx_date, category := category,
              amount := amount, payer := payer, notes := nts,
              split_with := split_with, household := get_user_household payer }]

/-- `update_expense` from `app.py`: UPDATE of `tx_date`, `category`,
`amount`, `payer`, `notes`, `split_with` on the rows matching the given
id; the SET clause names no other column. -/
def update_expense (table : List Expense) (expense_id tx_date : Nat) (category : String)
    (amount : ℚ) (payer nts : String) (split_with : Option String) : List Expense :=
  table.map fun r =>
    if r.id = expense_id then
      { r with tx_date := tx_date, category := category, amount := amount,
               payer := payer, notes := nts, split_with := split_with }
    else r

/-- `delete_row` from `app.py`: DELETE of the rows matching the given id. -/
def delete_row (table : List Expense) (row_id : Nat) : List Expense :=
  table.filter fun r => ¬ r.id = row_id

/-- Share of one row attributed to `person` by the split-aware spend
computation of `plot_user_png` and `budget_progress_png` in `app.py`:
rows whose payer matches case-insensitively contribute the full amount,
halved when `split_with` is non-null; rows whose `split_with` matches
case-insensitively contribute half the amount. -/
def rowShare (r : Expense) (person : String) : ℚ :=
  (if lower r.payer = lower person then
    (if r.split_with.isSome then r.amount / 2 else r.amount)
   else 0)
  + (match r.split_with with
     | some s => if lower s = lower person then r.amount / 2 else 0
     | none => 0)

/-- The non-empty branch of the split-aware spend computation of
`plot_user_png` and `budget_progress_png`: the payer-masked frame (with
split amounts halved) and the counterpart-masked frame (halved) are
concatenated and summed per category, which is the sum of `rowShare`
over the rows of that category. -/
def split_spend (rows : List Expense) (person cat : String) : ℚ :=
  match rows with
  | [] => 0
  | r :: rest =>
    (if r.category = cat then rowShare r person else 0) + split_spend rest person cat

/-- Per-category effective spend of `person` over a (month-filtered) row
set, as computed by `plot_user_png` and `budget_progress_png`: both
routes guard the whole computation on the person's payer-filtered frame
being non-empty (`if not dfm.empty` / `if person_df.empty`), so a person
who paid no row in the period gets the empty series — 0 for every
category, counterpart halves included; otherwise the spend is the
per-category `split_spend` sum. -/
def effective_spend (rows : List Expense) (person cat : String) : ℚ :=
  if rows.any (fun r => lower r.payer = lower person) then split_spend rows person cat
  else 0

/-- Per-category spend of `user` as computed by the `budget_dashboard`
route in `app.py` ("Simple spending calculation"): the full amount of
every current-month row whose payer matches case-insensitively, with no
split handling at all. -/
def dashboard_spent (rows : List Expense) (user cat : String) : ℚ :=
  match rows with
  | [] => 0
  | r :: rest =>
    (if lower r.payer = lower user ∧ r.category = cat then r.amount else 0)
      + dashboard_spent rest user cat

/-- Budget status tier in the spec's vocabulary.  The source represents
the same three-way branch as strings "success"/"warning"/"danger" in
`budget_dashboard` and as green/orange/red bar colors in
`budget_progress_png`; the spec names the tiers ok/warning/over. -/
inductive BudgetStatus where
  | ok
  | warning
  | over
deriving Repr, DecidableEq

/-- Per-category output of the budget evaluation in `budget_dashboard`. -/
structure BudgetEntry where
  spent : ℚ
  budget : ℚ
  remaining : ℚ
  percentage : ℚ
  status : BudgetStatus
deriving Repr, DecidableEq

/-- Per-category budget evaluation from `budget_dashboard` in `app.py`
(`budget_progress_png` computes `remaining` and the status colors by the
same formulas): `remaining = max(0, budget_limit - spent)`, `percentage =
spent / budget_limit * 100` guarded by `budget_limit > 0`, status over
when `spent > budget_limit`, warning when `spent > budget_limit * 0.8`,
else ok. -/
def evaluate_budget_entry (budget_limit spent : ℚ) : BudgetEntry :=
  { spent := spent
    budget := budget_limit
    remaining := max 0 (budget_limit - spent)
    percentage := if budget_limit > 0 then spent / budget_limit * 100 else 0
    status :=
      if spent > budget_limit then BudgetStatus.over
      else if spent > budget_limit * (0.8 : ℚ) then BudgetStatus.warning
      else BudgetStatus.ok }

/-- The `budget_dashboard` loop over `person_budgets.items()`: each
configured category is evaluated against `spent_by_category.get(category, 0)`. -/
def evaluate_budget (spent_by_category limits : List (String × ℚ)) :
    List (String × BudgetEntry) :=
  limits.map fun p =>
    (p.1, evaluate_budget_entry p.2
      (((spent_by_category.find? (fun q => q.1 = p.1)).map Prod.snd).getD 0))

/-- The fallible datastore operations performed by `get_user_budgets` in
`app.py`, each modelled as a result that is either a value or a raised
error: opening a connection, checking that the `user_budgets` table
exists, and querying the (category, budget_limit) rows for the username. -/
structure BudgetDb where
  connect : Except String Unit
  tableExists : Except String Bool
  queryBudgets : Except String (List (String × ℚ))

/-- Python dict assignment `budgets[category] = limit` over an
association-list model: overwrite an existing key, else append. -/
def dictInsert (m : List (String × ℚ)) (k : String) (v : ℚ) : List (String × ℚ) :=
  if m.any (fun p => p.1 = k) then m.map (fun p => if p.1 = k then (k, v) else p)
  else m ++ [(k, v)]

/-- Body of the `try` block of `get_user_budgets` in `app.py`: connect,
check the table, return the empty dict when it is missing, else build the
dict from the queried rows.  Any raised datastore error propagates. -/
def get_user_budgets_inner (db : BudgetDb) : Except String (List (String × ℚ)) := do
  let _ ← db.connect
  let tableEx ← db.tableExists
  if tableEx then
    let rows ← db.queryBudgets
    pure (rows.foldl (fun m p => dictInsert m p.1 p.2) [])
  else
    pure []

/-- `get_user_budgets` from `app.py`: the whole body is wrapped in
`try/except`, and every exception is swallowed into the empty dict, so
the function always returns a plain mapping and never raises. -/
def get_user_budgets (username : String) (db : BudgetDb) : List (String × ℚ) :=
  match get_user_budgets_inner db with
  | Except.ok budgets => budgets
  | Except.error _ => []

/-- Parameter list of `def get_user_budgets(username)` in `app.py`: a
single positional parameter. -/
def get_user_budgets_params : List String := ["username"]

/-- Python positional-call semantics: a call whose argument count differs
from the callee's parameter count raises `TypeError` before the body runs. -/
def pythonCall (params : List String) (args : List String)
    (body : List String → α) : Except String α :=
  if args.length = params.length then Except.ok (body args)
  else Except.error "TypeError"

/-- The `budgets_by_user` loop of `monthly_summary` in `app.py`: for each
household user it calls `get_user_budgets(user, current_user)` — two
positional arguments — and keeps the non-empty results. -/
def budgets_by_user_step (current_user : String) (db : BudgetDb)
    (users : List String) : Except String (List (String × List (String × ℚ))) :=
  users.foldlM
    (fun acc user =>
      (pythonCall get_user_budgets_params [user, current_user]
          (fun args => get_user_budgets (args.headD "") db)).map
        (fun ub => if ub = [] then acc else acc ++ [(user, ub)]))
    []

/-- One entry of the `budget_usage` list built by `monthly_summary`. -/
structure BudgetUsageEntry where
  user : String
  category : String
  budget : ℚ
  spent : ℚ
  remaining : ℚ
  percentage : ℚ
deriving Repr, DecidableEq

/-- The `budget_usage` loop of `monthly_summary` in `app.py`: per user
and configured category, spent is the exact-payer, exact-category sum of
the month's rows, `remaining = budget_limit - spent` (no clamping here),
and percentage is guarded by `budget_limit > 0`. -/
def budget_usage_entries (users : List String)
    (budgets_by_user : List (String × List (String × ℚ)))
    (month_rows : List Expense) : List BudgetUsageEntry :=
  users.foldl
    (fun acc user =>
      let user_rows := month_rows.filter (fun r => r.payer = user)
      let ub := ((budgets_by_user.find? (fun p => p.1 = user)).map Prod.snd).getD []
      acc ++ ub.map (fun p =>
        let spent := (user_rows.filter (fun r => r.category = p.1)).foldr
          (fun r a => r.amount + a) 0
        { user := user, category := p.1, budget := p.2, spent := spent,
          remaining := p.2 - spent,
          percentage := if p.2 > 0 then spent / p.2 * 100 else 0 }))
    []

/-- The budget-computation section of `monthly_summary` in `app.py`:
resolve the household users, run the `budgets_by_user` loop (whose calls
carry two arguments), then build the `budget_usage` entries; a raised
error anywhere aborts the computation. -/
def monthly_summary_budget_block (current_user : String) (db : BudgetDb)
    (month_rows : List Expense) : Except String (List BudgetUsageEntry) :=
  match budgets_by_user_step current_user db (get_household_users current_user) with
  | Except.error e => Except.error e
  | Except.ok by_user =>
    Except.ok (budget_usage_entries (get_household_users current_user) by_user month_rows)

section Helpers

/-- Status branch of `evaluate_budget_entry`, read off the source's
`if spent > budget_limit / elif spent > budget_limit * 0.8 / else` chain. -/
lemma evaluate_budget_entry_status (budget_limit spent : ℚ) :
    (evaluate_budget_entry budget_limit spent).status
      = (if spent > budget_limit then BudgetStatus.over
         else if spent > budget_limit * (0.8 : ℚ) then BudgetStatus.warning
         else BudgetStatus.ok) := rfl

/-- The three status tiers, characterised by the spent-vs-limit comparisons. -/
lemma evaluate_budget_entry_status_iff (budget_limit spent : ℚ) :
    ((evaluate_budget_entry budget_limit spent).status = BudgetStatus.over ↔ budget_limit < spent)
    ∧ ((evaluate_budget_entry budget_limit spent).status = BudgetStatus.warning ↔
        (budget_limit * (0.8 : ℚ) < spent ∧ spent ≤ budget_limit))
    ∧ ((evaluate_budget_entry budget_limit spent).status = BudgetStatus.ok ↔
        (spent ≤ budget_limit ∧ spent ≤ budget_limit * (0.8 : ℚ))) := by
  rw [evaluate_budget_entry_status]
  split_ifs with h1 h2
  · exact ⟨iff_of_true rfl h1,
      iff_of_false (by simp) (fun hc => absurd h1 (not_lt.mpr hc.2)),
      iff_of_false (by simp) (fun hc => absurd h1 (not_lt.mpr hc.1))⟩
  · exact ⟨iff_of_false (by simp) h1,
      iff_of_true rfl ⟨h2, not_lt.mp h1⟩,
      iff_of_false (by simp) (fun hc => absurd h2 (not_lt.mpr hc.2))⟩
  · exact ⟨iff_of_false (by simp) h1,
      iff_of_false (by simp) (fun hc => absurd hc.1 h2),
      iff_of_true rfl ⟨not_lt.mp h1, not_lt.mp h2⟩⟩

/-- `get_household_users` never returns the empty list. -/
lemma get_household_users_ne_nil (u : String) : get_household_users u ≠ [] := by
  unfold get_household_users
  split_ifs with h1 h2
  · simp
  · simp
  · cases hfind : HOUSEHOLD_USERS.find? (fun p => p.1 = get_user_household u) with
    | none => simp
    | some p =>
      have hp : p ∈ HOUSEHOLD_USERS := List.mem_of_find?_eq_some hfind
      simp only [HOUSEHOLD_USERS, List.mem_cons, List.not_mem_nil, or_false] at hp
      rcases hp with hp | hp <;> simp [hp]

/-- The `budgets_by_user` loop fails on its very first call: the call
site passes two positional arguments to a one-parameter function. -/
lemma budgets_by_user_step_cons (cu : String) (db : BudgetDb) (u : String)
    (rest : List String) :
    budgets_by_user_step cu db (u :: rest) = Except.error "TypeError" := by
  simp [budgets_by_user_step, List.foldlM, pythonCall, get_user_budgets_params,
    Except.map, Bind.bind, Except.bind]

end Helpers

/-- C1 (amended): for a row with payer `Y` split with a distinct identity
`X`, the chart-path effective spend gives `Y` exactly half of the amount
under the row's category; `X` receives the other half only when `X` paid
at least one row of the period — a counterpart who paid nothing falls
into the empty-frame branch and gets 0 for every category — and the two
halves sum to the amount; the budget dashboard's spend computation
ignores the split entirely, attributing the full amount to `Y` and
nothing to `X`. -/
theorem split_row_halves (r : Expense) (rows : List Expense) (X Y : String)
    (hp : r.payer = Y) (hs : r.split_with = some X) (hxy : lower X ≠ lower Y) :
    effective_spend (r :: rows) Y r.category = r.amount / 2 + split_spend rows Y r.category
    ∧ ((r :: rows).any (fun x => lower x.payer = lower X) = true →
        effective_spend (r :: rows) X r.category = r.amount / 2 + split_spend rows X r.category)
    ∧ ((r :: rows).any (fun x => lower x.payer = lower X) = false →
        effective_spend (r :: rows) X r.category = 0)
    ∧ r.amount / 2 + r.amount / 2 = r.amount
    ∧ dashboard_spent (r :: rows) Y r.category = r.amount + dashboard_spent rows Y r.category
    ∧ dashboard_spent (r :: rows) X r.category = dashboard_spent rows X r.category := by
  have hyx : ¬ lower Y = lower X := fun h => hxy h.symm
  refine ⟨?_, ?_, ?_, by ring, ?_, ?_⟩
  · simp [effective_spend, split_spend, rowShare, hp, hs, hxy]
  · intro hg
    simp [effective_spend, split_spend, rowShare, hp, hs, hg, hyx]
  · intro hg
    simp [effective_spend, hg]
  · simp [dashboard_spent, hp]
  · simp [dashboard_spent, hp, hyx]

/-- C1 witness: a 200-unit Transport row paid by erez and split with lia
contributes 100 to each once lia has also paid a row of the period (here
a 30-unit Food row). -/
theorem split_row_halves_witness :
    ([(⟨1, 0, 0, "Transport", 200, "erez", "", some "lia", "erez_lia"⟩ : Expense), ⟨2, 0, 0, "Food", 30, "lia", "", none, "erez_lia"⟩].any (fun x => lower x.payer = lower "lia") = true)
    ∧ effective_spend [(⟨1, 0, 0, "Transport", 200, "erez", "", some "lia", "erez_lia"⟩ : Expense), ⟨2, 0, 0, "Food", 30, "lia", "", none, "erez_lia"⟩] "erez" "Transport" = 100
    ∧ effective_spend [(⟨1, 0, 0, "Transport", 200, "erez", "", some "lia", "erez_lia"⟩ : Expense), ⟨2, 0, 0, "Food", 30, "lia", "", none, "erez_lia"⟩] "lia" "Transport" = 100 := by
  have h := split_row_halves ⟨1, 0, 0, "Transport", 200, "erez", "", some "lia", "erez_lia"⟩
    [⟨2, 0, 0, "Food", 30, "lia", "", none, "erez_lia"⟩] "lia" "erez" rfl rfl (by decide)
  refine ⟨by decide, ?_, ?_⟩
  · rw [h.1]
    norm_num [split_spend]
    decide
  · rw [h.2.1 (by decide)]
    norm_num [split_spend]
    decide

/-- C1 counterexample: for a single 200-unit row paid by erez and split
with lia, the chart path gives erez 100 but lia 0 — lia paid no row, so
the empty-frame guard drops the counterpart half — and the dashboard
path gives erez the full 200 and lia 0; neither path gives both users
half each. -/
theorem split_row_counterexample :
    effective_spend [(⟨1, 0, 0, "Transport", 200, "erez", "", some "lia", "erez_lia"⟩ : Expense)] "erez" "Transport" = 100
    ∧ effective_spend [(⟨1, 0, 0, "Transport", 200, "erez", "", some "lia", "erez_lia"⟩ : Expense)] "lia" "Transport" = 0
    ∧ dashboard_spent [(⟨1, 0, 0, "Transport", 200, "erez", "", some "lia", "erez_lia"⟩ : Expense)] "erez" "Transport" = 200
    ∧ dashboard_spent [(⟨1, 0, 0, "Transport", 200, "erez", "", some "lia", "erez_lia"⟩ : Expense)] "lia" "Transport" = 0
    ∧ (0 : ℚ) ≠ 100 ∧ (200 : ℚ) ≠ 100 := by
  refine ⟨?_, ?_, ?_, ?_, by norm_num, by norm_num⟩
  · norm_num [effective_spend, split_spend, rowShare]
    decide
  · norm_num [effective_spend]
    decide
  · norm_num [dashboard_spent]
  · norm_num [dashboard_spent]
    decide

/-- C2 counterexample: a zero limit with spend 50 yields percentage 0 as
claimed, but status over, not ok (`spent > budget_limit` fires first). -/
theorem zero_limit_status_counterexample :
    evaluate_budget [("Food", 50)] [("Food", 0)]
      = [("Food", { spent := 50, budget := 0, remaining := 0, percentage := 0,
                    status := BudgetStatus.over })]
    ∧ BudgetStatus.over ≠ BudgetStatus.ok := by
  constructor
  · norm_num [evaluate_budget, evaluate_budget_entry, List.find?]
  · decide

/-- C2 (amended): a zero-or-negative limit never divides by zero — the
percentage is defined as 0 regardless of spend — but the status keeps the
general rule, so it is over exactly when spent exceeds the limit (in
particular limit 0 with spend 50 is over, and ok only holds when the
spend is at most the limit and at most 0.8 of it). -/
theorem zero_limit_policy (budget_limit spent : ℚ) (h : budget_limit ≤ 0) :
    (evaluate_budget_entry budget_limit spent).percentage = 0
    ∧ ((evaluate_budget_entry budget_limit spent).status = BudgetStatus.over ↔
        budget_limit < spent)
    ∧ ((evaluate_budget_entry budget_limit spent).status = BudgetStatus.ok ↔
        (spent ≤ budget_limit ∧ spent ≤ budget_limit * (0.8 : ℚ))) := by
  refine ⟨?_, (evaluate_budget_entry_status_iff budget_limit spent).1,
    (evaluate_budget_entry_status_iff budget_limit spent).2.2⟩
  simp [evaluate_budget_entry, not_lt.mpr h]

/-- C2 witness: limit 0 and spend 50 give percentage 0 and status over. -/
theorem zero_limit_policy_witness :
    (0 : ℚ) ≤ 0
    ∧ (evaluate_budget_entry 0 50).percentage = 0
    ∧ (evaluate_budget_entry 0 50).status = BudgetStatus.over := by
  have h := zero_limit_policy 0 50 le_rfl
  exact ⟨le_rfl, h.1, h.2.1.mpr (by norm_num)⟩

/-- C3: the status tier is over iff spent > limit, warning iff
0.8·limit < spent ≤ limit, and ok otherwise. -/
theorem status_tier_characterisation (budget_limit spent : ℚ) :
    ((evaluate_budget_entry budget_limit spent).status = BudgetStatus.over ↔
      budget_limit < spent)
    ∧ ((evaluate_budget_entry budget_limit spent).status = BudgetStatus.warning ↔
        (budget_limit * (0.8 : ℚ) < spent ∧ spent ≤ budget_limit))
    ∧ ((evaluate_budget_entry budget_limit spent).status = BudgetStatus.ok ↔
        ¬ budget_limit < spent ∧ ¬ (budget_limit * (0.8 : ℚ) < spent ∧ spent ≤ budget_limit)) := by
  obtain ⟨h1, h2, h3⟩ := evaluate_budget_entry_status_iff budget_limit spent
  refine ⟨h1, h2, h3.trans ?_⟩
  constructor
  · rintro ⟨ha, hb⟩
    exact ⟨not_lt.mpr ha, fun hc => absurd hc.1 (not_lt.mpr hb)⟩
  · rintro ⟨ha, hb⟩
    have hle : spent ≤ budget_limit := not_lt.mp ha
    refine ⟨hle, not_lt.mp fun hc => hb ⟨hc, hle⟩⟩

/-- C4: remaining is the clamped difference max(0, limit − spent), hence
never negative; limit 100 with spend 120 leaves remaining 0. -/
theorem remaining_is_clamped (budget_limit spent : ℚ) :
    (evaluate_budget_entry budget_limit spent).remaining = max 0 (budget_limit - spent)
    ∧ 0 ≤ (evaluate_budget_entry budget_limit spent).remaining
    ∧ (evaluate_budget_entry 100 120).remaining = 0 := by
  refine ⟨rfl, le_max_left _ _, ?_⟩
  norm_num [evaluate_budget_entry]

/-- C6: a row whose payer coincides with its split counterpart contributes
exactly the full amount once to that user's category total (the two
half-contributions of the source sum to the amount, not more); the user
being the row's payer, the empty-frame guard always passes. -/
theorem self_split_counts_once (r : Expense) (rows : List Expense) (u s : String)
    (hp : r.payer = u) (hs : r.split_with = some s) (hsu : lower s = lower u) :
    effective_spend (r :: rows) u r.category = r.amount + split_spend rows u r.category := by
  simp [effective_spend, split_spend, rowShare, hp, hs, hsu]

/-- C6 witness: a 100-unit Food row by erez split with themselves counts
100 exactly once. -/
theorem self_split_counts_once_witness :
    effective_spend [⟨1, 0, 0, "Food", 100, "erez", "", some "erez", "erez_lia"⟩]
      "erez" "Food" = 100 := by
  have h := self_split_counts_once ⟨1, 0, 0, "Food", 100, "erez", "", some "erez", "erez_lia"⟩
    [] "erez" "erez" rfl rfl rfl
  rw [h]; norm_num [split_spend]

/-- C7: a row with no split counterpart contributes its full amount to the
payer's category total, on the chart path (where the payer's frame is
non-empty, the row itself being in it) and on the dashboard path alike. -/
theorem no_split_full_amount (r : Expense) (rows : List Expense)
    (hs : r.split_with = none) :
    effective_spend (r :: rows) r.payer r.category
      = r.amount + split_spend rows r.payer r.category
    ∧ dashboard_spent (r :: rows) r.payer r.category
      = r.amount + dashboard_spent rows r.payer r.category := by
  constructor
  · simp [effective_spend, split_spend, rowShare, hs]
  · simp [dashboard_spent]

/-- C7 witness: the spec's scenario — a single 100-unit Food row paid by A
with no split gives A an effective Food spend of 100. -/
theorem no_split_full_amount_witness :
    effective_spend [⟨1, 0, 0, "Food", 100, "A", "", none, "default"⟩] "A" "Food" = 100 := by
  have h := no_split_full_amount ⟨1, 0, 0, "Food", 100, "A", "", none, "default"⟩ [] rfl
  rw [h.1]
  norm_num [split_spend]

/-- C5 counterexample: a row added by erez carries household erez_lia;
editing its payer to mom leaves the household column untouched, so after
the edit the tag differs from the resolved household of the new payer. -/
theorem household_tag_stale_after_edit :
    update_expense (add_expense [] 1 0 0 "Food" 100 "erez" "" none) 1 0 "Food" 100 "mom" "" none
      = [{ id := 1, ts := 0, tx_date := 0, category := "Food", amount := 100, payer := "mom",
           notes := "", split_with := none, household := "erez_lia" }]
    ∧ get_user_household "mom" = "parents"
    ∧ ("erez_lia" : String) ≠ "parents" := by
  refine ⟨by decide, by decide, by decide⟩

/-- C5 (amended): creation sets the household tag to the resolved
household of the payer at that write, but the edit action never rewrites
the household column, so after an edit the tag still reflects the payer
at creation and may disagree with the new payer's household. -/
theorem household_tag_on_write (table : List Expense) (newId ts d : Nat) (cat : String)
    (amt : ℚ) (payer nts : String) (sw : Option String)
    (eid ud : Nat) (ucat : String) (uamt : ℚ) (up uno : String) (usw : Option String) :
    (∀ r ∈ add_expense table newId ts d cat amt payer nts sw,
        r ∈ table ∨ r.household = get_user_household payer)
    ∧ (update_expense table eid ud ucat uamt up uno usw).map Expense.household
        = table.map Expense.household := by
  constructor
  · intro r hr
    rcases List.mem_append.mp hr with h | h
    · exact Or.inl h
    · right
      rw [List.mem_singleton.mp h]
  · induction table with
    | nil => rfl
    | cons r rest ih =>
      simp only [update_expense, List.map_cons] at ih ⊢
      rw [ih]
      by_cases h : r.id = eid <;> simp [h]

/-- C5 witness: the freshly added erez row carries household erez_lia,
the resolved household of its payer. -/
theorem household_tag_on_write_witness :
    (⟨1, 0, 0, "Food", 100, "erez", "", none, "erez_lia"⟩ : Expense) ∈ add_expense [] 1 0 0 "Food" 100 "erez" "" none
    ∧ ((⟨1, 0, 0, "Food", 100, "erez", "", none, "erez_lia"⟩ : Expense) ∈ ([] : List Expense)
        ∨ (⟨1, 0, 0, "Food", 100, "erez", "", none, "erez_lia"⟩ : Expense).household = get_user_household "erez") := by
  have hmem : (⟨1, 0, 0, "Food", 100, "erez", "", none, "erez_lia"⟩ : Expense) ∈ add_expense [] 1 0 0 "Food" 100 "erez" "" none := by decide
  exact ⟨hmem,
    (household_tag_on_write [] 1 0 0 "Food" 100 "erez" "" none 1 0 "Food" 100 "mom" "" none).1
      _ hmem⟩

/-- C8: the monthly summary's budget computation always aborts with a
TypeError — `get_user_budgets` has one parameter but is called with two
arguments for the first household user — so no budget_usage entry is ever
produced on that path. -/
theorem monthly_summary_budgets_never_complete (current_user : String) (db : BudgetDb)
    (month_rows : List Expense) :
    monthly_summary_budget_block current_user db month_rows = Except.error "TypeError" := by
  unfold monthly_summary_budget_block
  cases hu : get_household_users current_user with
  | nil => exact absurd hu (get_household_users_ne_nil current_user)
  | cons u rest => rw [budgets_by_user_step_cons]

/-- C9: an edit rewrites exactly tx_date, category, amount, payer, notes
and split_with of the rows carrying the target id, keeping their id, ts
and household, and leaves every other row (and the table length) intact. -/
theorem update_expense_frame (table : List Expense) (eid d : Nat) (cat : String)
    (amt : ℚ) (p nts : String) (sw : Option String) :
    (update_expense table eid d cat amt p nts sw).length = table.length
    ∧ ∀ i (h : i < table.length),
      (update_expense table eid d cat amt p nts sw).get
          ⟨i, by simpa [update_expense] using h⟩
        = (if (table.get ⟨i, h⟩).id = eid
           then { table.get ⟨i, h⟩ with tx_date := d, category := cat, amount := amt, payer := p, notes := nts, split_with := sw }
           else table.get ⟨i, h⟩) := by
  constructor
  · simp [update_expense]
  · intro i h
    simp [update_expense, List.get_eq_getElem, List.getElem_map]

/-- C9 witness: editing the single row of a one-row table rewrites the six
editable fields and keeps id 1, ts 7 and household erez_lia. -/
theorem update_expense_frame_witness :
    (update_expense [⟨1, 7, 3, "Food", 100, "erez", "n", none, "erez_lia"⟩] 1 5 "Sport" 70 "lia" "x" none).get ⟨0, by decide⟩
      = (⟨1, 7, 5, "Sport", 70, "lia", "x", none, "erez_lia"⟩ : Expense) := by
  have h := (update_expense_frame [⟨1, 7, 3, "Food", 100, "erez", "n", none, "erez_lia"⟩] 1 5 "Sport" 70 "lia" "x" none).2 0 (by decide)
  simpa using h

/-- C10: `get_user_budgets` swallows every datastore failure into the
empty mapping — connection errors, a missing user_budgets table, and
query errors all yield {}, indistinguishable from a user with no
configured limits. -/
theorem get_user_budgets_swallows_failures (username : String) (db : BudgetDb) :
    (∀ e, db.connect = Except.error e → get_user_budgets username db = [])
    ∧ (∀ e, db.tableExists = Except.error e → get_user_budgets username db = [])
    ∧ (db.connect = Except.ok () → db.tableExists = Except.ok false →
        get_user_budgets username db = [])
    ∧ (∀ e, db.connect = Except.ok () → db.tableExists = Except.ok true →
        db.queryBudgets = Except.error e → get_user_budgets username db = [])
    ∧ (∀ e, db.connect = Except.ok () → db.tableExists = Except.ok true →
        db.queryBudgets = Except.error e →
        get_user_budgets username db
          = get_user_budgets username ⟨Except.ok (), Except.ok true, Except.ok []⟩) := by
  refine ⟨?_, ?_, ?_, ?_, ?_⟩
  · intro e he
    simp [get_user_budgets, get_user_budgets_inner, he, Bind.bind, Except.bind]
  · intro e he
    cases hc : db.connect with
    | error ec => simp [get_user_budgets, get_user_budgets_inner, hc, Bind.bind, Except.bind]
    | ok uc =>
      simp [get_user_budgets, get_user_budgets_inner, hc, he, Bind.bind, Except.bind]
  · intro hc ht
    simp [get_user_budgets, get_user_budgets_inner, hc, ht, Bind.bind, Except.bind, Pure.pure, Except.pure]
  · intro e hc ht hq
    simp [get_user_budgets, get_user_budgets_inner, hc, ht, hq, Bind.bind, Except.bind]
  · intro e hc ht hq
    simp [get_user_budgets, get_user_budgets_inner, hc, ht, hq, Bind.bind, Except.bind, Pure.pure, Except.pure]

/-- C10 witness: a datastore that fails on every operation still yields
the empty mapping. -/
theorem get_user_budgets_swallows_failures_witness :
    get_user_budgets "erez"
      ⟨Except.error "connection refused", Except.error "connection refused",
       Except.error "connection refused"⟩ = [] :=
  (get_user_budgets_swallows_failures "erez"
    ⟨Except.error "connection refused", Except.error "connection refused",
     Except.error "connection refused"⟩).1 "connection refused" rfl
